import Mathlib

/-!
Verification development for the tumor-only RNA-seq somatic-mutation
identification scripts (`scripts/somatic_germline_module.py` and
`scripts/Sapelo2_extract_somatic_germline.py`).

The Python code is shallowly embedded: Python dictionaries become
association lists where the most recent binding is found first (so that
prepending a binding models dict assignment, giving last-write-wins
semantics), the two regular expressions used by
`identify_species_counterparts` are modelled by explicit character-list
scanners with Python `re.search` leftmost-match semantics, and Python
runtime exceptions (`UnboundLocalError`, `KeyError`, `ValueError`,
`TypeError`, `IndexError`) are modelled as explicit outcome values.
-/

set_option maxRecDepth 8000

/-- ASCII letter test, the character class `[A-Za-z]` of the Python regexes. -/
def isAsciiLetter (c : Char) : Bool :=
  ('A' ≤ c && c ≤ 'Z') || ('a' ≤ c && c ≤ 'z')

/-- ASCII digit test, the character class `\d` of the Python regexes. -/
def isAsciiDigit (c : Char) : Bool :=
  '0' ≤ c && c ≤ '9'

/-- ASCII uppercase test, the character class `[A-Z]` of the Python regexes. -/
def isAsciiUpper (c : Char) : Bool :=
  'A' ≤ c && c ≤ 'Z'

/-- Model of Python `str.upper()` on a single ASCII character. -/
def pyCharUpper (c : Char) : Char :=
  if 'a' ≤ c && c ≤ 'z' then Char.ofNat (c.toNat - 32) else c

/-- Model of Python `str.split(sep)` for a one-character separator:
splits on every occurrence of the separator; the result is never empty. -/
def pySplit (sep : Char) : List Char → List (List Char)
  | [] => [[]]
  | c :: rest =>
    match pySplit sep rest with
    | h :: t => if c = sep then [] :: h :: t else (c :: h) :: t
    | [] => if c = sep then [[], []] else [[c]]

/-- Model of Python's `"fs" in s` substring test: some `'f'` immediately
followed by `'s'` occurs in the character list. -/
def hasFsSub : List Char → Bool
  | 'f' :: 's' :: _ => true
  | _ :: rest => hasFsSub rest
  | [] => false

/-- Tail condition of the frameshift regex `([A-Za-z])(\d+)([A-Za-z]*)(fs)`
after the digit group: the literal `fs` must occur inside the maximal run
of letters that follows the digits (the greedy `[A-Za-z]*` group backtracks
until the literal `fs` fits). -/
def fsTailOk (after : List Char) : Bool :=
  hasFsSub (after.takeWhile isAsciiLetter)

/-- Attempt to match the frameshift regex `([A-Za-z])(\d+)([A-Za-z]*)(fs)`
anchored at the head of the list; on success return the two capture groups
the code uses: the wild-type letter and the digit run.  `\d+` is effectively
maximal here because the character after the digits must be a letter. -/
def fsMatchHere : List Char → Option (Char × List Char)
  | [] => none
  | c :: rest =>
    if isAsciiLetter c then
      let digits := rest.takeWhile isAsciiDigit
      if digits.isEmpty then none
      else if fsTailOk (rest.dropWhile isAsciiDigit) then some (c, digits)
      else none
    else none

/-- Model of `re.search` for the frameshift pattern: try every start
position from the left and return the first (leftmost) match. -/
def fsSearch : List Char → Option (Char × List Char)
  | [] => none
  | c :: rest =>
    match fsMatchHere (c :: rest) with
    | some r => some r
    | none => fsSearch rest

/-- Attempt to match the substitution regex `([A-Za-z])(\d+)([A-Z])`
anchored at the head of the list; on success return the three capture
groups: wild type, position digits, mutant. -/
def snvMatchHere : List Char → Option (Char × List Char × Char)
  | [] => none
  | c :: rest =>
    if isAsciiLetter c then
      let digits := rest.takeWhile isAsciiDigit
      if digits.isEmpty then none
      else
        match rest.dropWhile isAsciiDigit with
        | m :: _ => if isAsciiUpper m then some (c, digits, m) else none
        | [] => none
    else none

/-- Model of `re.search` for the substitution pattern: leftmost match. -/
def snvSearch : List Char → Option (Char × List Char × Char)
  | [] => none
  | c :: rest =>
    match snvMatchHere (c :: rest) with
    | some r => some r
    | none => snvSearch rest

/-- Python dictionary lookup `d.get(k)` on an association list; the most
recently inserted binding is found first. -/
def pyGet {β : Type} : List (String × β) → String → Option β
  | [], _ => none
  | (k, v) :: rest, q => if q = k then some v else pyGet rest q

/-- Python membership test `k in d`. -/
def pyContains {β : Type} (d : List (String × β)) (k : String) : Bool :=
  (pyGet d k).isSome

/-- Inner dictionary of `createDictforHumanDogSearch`: position (kept in its
original string form) to position or residue. -/
abbrev InnerDict := List (String × String)

/-- Outer dictionary keyed by gene name. -/
abbrev GeneDict := List (String × InnerDict)

/-- Two-level lookup `d[g][k]` guarded by presence of both keys. -/
def pyGet2 (d : GeneDict) (g k : String) : Option String :=
  match pyGet d g with
  | none => none
  | some inner => pyGet inner k

/-- Python nested assignment `d[g][k] = v` (the outer key is present
whenever the code performs it; an absent outer key behaves as an empty
inner dictionary here). -/
def pySet2 (d : GeneDict) (g k v : String) : GeneDict :=
  (g, (k, v) :: ((pyGet d g).getD [])) :: d

/-- Keys of the module-level `common_amino_acid_value` ordered dictionary:
the twenty standard single-letter amino-acid codes plus the catch-all X. -/
def commonAA : List Char :=
  ['A', 'R', 'N', 'D', 'C', 'E', 'Q', 'G', 'H', 'I', 'L',
   'K', 'M', 'F', 'P', 'S', 'T', 'W', 'Y', 'V', 'X']

/-- State of the local variables `wt`, `pos`, `mut`, `situtation` of
`identify_species_counterparts` after the two regex attempts.  In the
frameshift branch the local `mut` is never assigned; when neither pattern
matches, the local `situtation` is never assigned. -/
inductive ParseState where
  | unbound : ParseState
  | fs (wt : Char) (pos : List Char) : ParseState
  | snv (wt : Char) (pos : List Char) (mutant : Char) : ParseState
deriving DecidableEq

/-- The pattern-dispatch of `identify_species_counterparts`: if the string
`fs` occurs in the mutation token only the frameshift regex is tried,
otherwise only the substitution regex is tried. -/
def parseMutInfo (cs : List Char) : ParseState :=
  if hasFsSub cs then
    match fsSearch cs with
    | some (w, p) => ParseState.fs w p
    | none => ParseState.unbound
  else
    match snvSearch cs with
    | some (w, p, m) => ParseState.snv w p m
    | none => ParseState.unbound

/-- Result of a call into the Python function: either a returned string or
a raised exception. -/
inductive PyOutcome where
  | ret (value : String)
  | unboundLocalError (varName : String)
  | valueError
  | keyError
deriving DecidableEq

/-- Core of `identify_species_counterparts` after the direction-dependent
dictionaries have been selected, mirroring the source line by line:
the gene-membership test against `alt_dict`, the short-circuiting
standard-residue test (which dereferences the unassigned local `mut` in
the frameshift branch), the position lookup in `ref_dict`, the residue
lookup in the other species' amino-acid dictionary, and the final
wild-type-stable / no-mutation / translated cascade. -/
def identifyCore (gene_name : String) (mut_info : List Char)
    (ref_dict alt_dict other_species_aa_dict : GeneDict) : PyOutcome :=
  match parseMutInfo mut_info with
  | ParseState.unbound => PyOutcome.unboundLocalError "situtation"
  | ParseState.fs wt _pos =>
    if pyContains alt_dict gene_name then
      if commonAA.contains (pyCharUpper wt) then
        PyOutcome.unboundLocalError "mut"
      else PyOutcome.ret "No Counterparts"
    else PyOutcome.ret "No Counterparts"
  | ParseState.snv wt pos mutant =>
    if pyContains alt_dict gene_name then
      if commonAA.contains (pyCharUpper wt) && commonAA.contains (pyCharUpper mutant) then
        match pyGet ref_dict gene_name with
        | none => PyOutcome.keyError
        | some refInner =>
          match pyGet refInner (String.mk pos) with
          | none => PyOutcome.ret "No Counterparts"
          | some other_species_pos =>
            match pyGet other_species_aa_dict gene_name with
            | none => PyOutcome.keyError
            | some aaInner =>
              match pyGet aaInner other_species_pos with
              | none => PyOutcome.ret "No Counterparts"
              | some other_species_wt =>
                if wt = mutant then
                  PyOutcome.ret (gene_name ++ "_" ++ other_species_wt ++
                    other_species_pos ++ other_species_wt)
                else if String.mk [mutant] = other_species_wt then
                  PyOutcome.ret "No Mutation"
                else
                  PyOutcome.ret (gene_name ++ "_" ++ other_species_wt ++
                    other_species_pos ++ String.mk [mutant])
      else PyOutcome.ret "No Counterparts"
    else PyOutcome.ret "No Counterparts"

/-- Model of Python `str.upper()` on a string. -/
def pyUpper (s : String) : String :=
  String.mk (s.data.map pyCharUpper)

/-- Direction selection of `identify_species_counterparts`: returns the
triple `(ref_dict, alt_dict, other_species_aa_dict)`. -/
def selectDicts (translate_to : String) (human_dog_pos_dict dog_human_pos_dict
    human_aa_dict dog_aa_dict : GeneDict) : GeneDict × GeneDict × GeneDict :=
  if pyUpper translate_to = "DOG" then
    (human_dog_pos_dict, dog_human_pos_dict, dog_aa_dict)
  else
    (dog_human_pos_dict, human_dog_pos_dict, human_aa_dict)

/-- `identify_species_counterparts` of `somatic_germline_module.py`: split
the token `gene_mutInfo` on underscores (unpacking to exactly two parts,
else a `ValueError`), select the dictionaries for the requested direction
and run the core translation. -/
def identify_species_counterparts (gene_mut_info : String)
    (human_dog_pos_dict dog_human_pos_dict human_aa_dict dog_aa_dict : GeneDict)
    (translate_to : String) : PyOutcome :=
  match pySplit '_' gene_mut_info.data with
  | [g, m] =>
    identifyCore (String.mk g) m
      (selectDicts translate_to human_dog_pos_dict dog_human_pos_dict
        human_aa_dict dog_aa_dict).1
      (selectDicts translate_to human_dog_pos_dict dog_human_pos_dict
        human_aa_dict dog_aa_dict).2.1
      (selectDicts translate_to human_dog_pos_dict dog_human_pos_dict
        human_aa_dict dog_aa_dict).2.2
  | _ => PyOutcome.valueError

/-- One row of the cross-species sequence-alignment table, in the column
order read by `createDictforHumanDogSearch` from the pandas records:
`entry[1]` gene, `entry[2]` query (human) position, `entry[3]` reference
(dog) position, `entry[4]` query amino acid, `entry[5]` reference amino
acid.  Positions are kept in their original string form. -/
structure AlignRow where
  gene : String
  queryIdx : String
  refIdx : String
  queryAA : String
  refAA : String
deriving DecidableEq

/-- The four dictionaries returned by `createDictforHumanDogSearch`. -/
structure TotalDict where
  human_dog_pos_dict : GeneDict
  dog_human_pos_dict : GeneDict
  human_aa_dict : GeneDict
  dog_aa_dict : GeneDict
deriving DecidableEq

/-- The empty `total_dict` before any alignment entry is processed. -/
def emptyTotalDict : TotalDict := ⟨[], [], [], []⟩

/-- Initialisation step of `createDictforHumanDogSearch` for a gene that is
not yet a key of `human_dog_pos_dict`: all four dictionaries get an empty
inner dictionary for it. -/
def initGene (td : TotalDict) (g : String) : TotalDict :=
  { human_dog_pos_dict := (g, []) :: td.human_dog_pos_dict
    dog_human_pos_dict := (g, []) :: td.dog_human_pos_dict
    human_aa_dict := (g, []) :: td.human_aa_dict
    dog_aa_dict := (g, []) :: td.dog_aa_dict }

/-- The four nested assignments performed for one alignment entry. -/
def setEntry (td : TotalDict) (e : AlignRow) : TotalDict :=
  { human_dog_pos_dict := pySet2 td.human_dog_pos_dict e.gene e.queryIdx e.refIdx
    dog_human_pos_dict := pySet2 td.dog_human_pos_dict e.gene e.refIdx e.queryIdx
    human_aa_dict := pySet2 td.human_aa_dict e.gene e.queryIdx e.queryAA
    dog_aa_dict := pySet2 td.dog_aa_dict e.gene e.refIdx e.refAA }

/-- Processing of one alignment entry by `createDictforHumanDogSearch`:
initialise the four dictionaries for a new gene, then perform the four
nested assignments (later entries for the same gene and position overwrite
earlier ones). -/
def insertEntry (td : TotalDict) (e : AlignRow) : TotalDict :=
  setEntry (if pyContains td.human_dog_pos_dict e.gene then td else initGene td e.gene) e

/-- `createDictforHumanDogSearch` of `somatic_germline_module.py`: fold the
entry processing over the (already gap-cleaned) alignment table. -/
def createDictforHumanDogSearch (clean_translate_table : List AlignRow) : TotalDict :=
  clean_translate_table.foldl insertEntry emptyTotalDict

/-- Gap handling performed by the callers before building the index
(`extract_human_somatic` and the main script): rows whose query amino acid
is the gap marker get their query position set to the gap marker, and rows
whose query position is the gap marker are then discarded. -/
def gapClean (rows : List AlignRow) : List AlignRow :=
  (rows.map (fun r => if r.queryAA = "-" then { r with queryIdx := "-" } else r)).filter
    (fun r => !(r.queryIdx = "-"))

/-- One row of `target_merge_gatk_annovar` restricted to the columns the
reconciliation logic of `Sapelo2_extract_somatic_germline.py` reads:
the ordinal line identifier, the Annovar gene name, the Ensembl transcript
identifier, the `Gene_mut_info` token fed to the translator, and the
genomic key `Chrom_mut_info` (chrom_pos_ref_alt).  Full-row equality of
the dataframe is modelled by equality of these records. -/
structure ARow where
  line : String
  gene_name : String
  ensembl_transcripts : String
  gene_mut_info : String
  chrom_mut_info : String
deriving DecidableEq

/-- An `ARow` together with its two translated-counterpart columns
`C_bio_Human_counterpart` and `Cosm_Human_counterpart`. -/
structure XRow where
  base : ARow
  cbioC : String
  cosmC : String
deriving DecidableEq

/-- One row of a human-dog transcript correspondence table (three unheaded
columns: gene, human transcript, dog transcript). -/
structure TransRow where
  gene : String
  humanT : String
  dogT : String
deriving DecidableEq

/-- The `Dog_transcripts` column of a transcript correspondence table. -/
def dogTranscriptCol (table : List TransRow) : List String :=
  table.map (fun t => t.dogT)

/-- A row of the final output table: a variant-annotation record together
with its evidence `Source` tag. -/
structure FinalRow where
  row : ARow
  source : String
deriving DecidableEq

/-- Model of pandas `drop_duplicates`: keep the first occurrence of every
row. -/
def dropDuplicates {α : Type} [DecidableEq α] : List α → List α
  | [] => []
  | a :: as => a :: (dropDuplicates as).filter (fun b => decide (b ≠ a))

/-- All inputs of the reconciliation part of
`Sapelo2_extract_somatic_germline.py` (everything after
`target_merge_gatk_annovar` has been assembled). -/
structure PipelineInput where
  rows : List ARow
  pan_cancer_source : List String
  all_c_bio_list : List String
  all_cosmic_list : List String
  cbio_trans_table : List TransRow
  cosm_trans_table : List TransRow
  cbio_hd : GeneDict
  cbio_dh : GeneDict
  cbio_ha : GeneDict
  cbio_da : GeneDict
  cosm_hd : GeneDict
  cosm_dh : GeneDict
  cosm_ha : GeneDict
  cosm_da : GeneDict
  translate_to : String
deriving DecidableEq

/-- The two `.apply(identify_species_counterparts, ...)` column
computations for one row; a raised exception aborts the whole run. -/
def mkXRow (inp : PipelineInput) (r : ARow) : Except String XRow :=
  match identify_species_counterparts r.gene_mut_info inp.cbio_hd inp.cbio_dh
      inp.cbio_ha inp.cbio_da inp.translate_to,
    identify_species_counterparts r.gene_mut_info inp.cosm_hd inp.cosm_dh
      inp.cosm_ha inp.cosm_da inp.translate_to with
  | PyOutcome.ret a, PyOutcome.ret b => Except.ok ⟨r, a, b⟩
  | _, _ => Except.error "exception raised in identify_species_counterparts"

/-- Compute the two counterpart columns for every row of
`target_merge_gatk_annovar`. -/
def computeCounterpartsList (inp : PipelineInput) : List ARow → Except String (List XRow)
  | [] => Except.ok []
  | r :: rest =>
    match mkXRow inp r, computeCounterpartsList inp rest with
    | Except.ok x, Except.ok xs => Except.ok (x :: xs)
    | Except.error e, _ => Except.error e
    | _, Except.error e => Except.error e

/-- `pan_cancer_pass`: rows whose genomic key `Chrom_mut_info` occurs in
the pan-cancer reference set (exact coordinate+ref+alt match, computed
before the counterpart columns are added). -/
def pan_cancer_pass (rows : List ARow) (pan_cancer_source : List String) : List ARow :=
  rows.filter (fun r => decide (r.chrom_mut_info ∈ pan_cancer_source))

/-- The transcript gate: keep rows whose Ensembl transcript occurs in the
`Dog_transcripts` column of the correspondence table (a global column
membership test). -/
def transcript_match (xs : List XRow) (dogTs : List String) : List XRow :=
  xs.filter (fun x => decide (x.base.ensembl_transcripts ∈ dogTs))

/-- Rows passing both the transcript gate and the c-bio counterpart
membership test, with their counterpart columns still attached. -/
def c_bio_match_rows (xs : List XRow) (dogTs : List String)
    (all_c_bio_list : List String) : List XRow :=
  (transcript_match xs dogTs).filter (fun x => decide (x.cbioC ∈ all_c_bio_list))

/-- `c_bio_pass` after dropping the helper counterpart column. -/
def c_bio_pass (xs : List XRow) (dogTs : List String)
    (all_c_bio_list : List String) : List ARow :=
  (c_bio_match_rows xs dogTs all_c_bio_list).map (fun x => x.base)

/-- Rows passing both the transcript gate and the COSMIC counterpart
membership test, with their counterpart columns still attached. -/
def cosm_match_rows (xs : List XRow) (dogTs : List String)
    (all_cosmic_list : List String) : List XRow :=
  (transcript_match xs dogTs).filter (fun x => decide (x.cosmC ∈ all_cosmic_list))

/-- `cosm_pass` after dropping the helper counterpart columns. -/
def cosm_pass (xs : List XRow) (dogTs : List String)
    (all_cosmic_list : List String) : List ARow :=
  (cosm_match_rows xs dogTs all_cosmic_list).map (fun x => x.base)

/-- `cosm_pass_uniq`: the outer merge with `indicator=True` keeping
`left_only` rows, i.e. COSMIC rows with no fully equal row (after helper
columns are removed) among the c-bio rows. -/
def cosm_pass_uniq (cosm cbio : List ARow) : List ARow :=
  cosm.filter (fun r => decide (r ∉ cbio))

/-- `final_panancer_cbio_cosmic`: the three tagged pass sets appended and
deduplicated (the appended empty-frame special case of the source is the
same as appending empty lists). -/
def finalPanCbioCosmic (inp : PipelineInput) (xs : List XRow) : List FinalRow :=
  dropDuplicates
    ((pan_cancer_pass inp.rows inp.pan_cancer_source).map
        (fun r => FinalRow.mk r "Pan-cancer") ++
      (c_bio_pass xs (dogTranscriptCol inp.cbio_trans_table) inp.all_c_bio_list).map
        (fun r => FinalRow.mk r "C-bio") ++
      (cosm_pass_uniq
          (cosm_pass xs (dogTranscriptCol inp.cosm_trans_table) inp.all_cosmic_list)
          (c_bio_pass xs (dogTranscriptCol inp.cbio_trans_table) inp.all_c_bio_list)).map
        (fun r => FinalRow.mk r "Cosmic"))

/-- `remained_df`: rows whose genomic key is not among the keys of the
passed records, tagged `Remained`. -/
def remainedRows (inp : PipelineInput) (xs : List XRow) : List FinalRow :=
  (inp.rows.filter (fun r =>
      !(decide (r.chrom_mut_info ∈
        (finalPanCbioCosmic inp xs).map (fun fr => fr.row.chrom_mut_info))))).map
    (fun r => FinalRow.mk r "Remained")

/-- The reconciliation of `Sapelo2_extract_somatic_germline.py` once the
counterpart columns exist: tag the three pass sets with their `Source`,
append and deduplicate, compute the `Remained` set from the genomic keys
of the passed rows, append it and deduplicate again. -/
def reconcile (inp : PipelineInput) (xs : List XRow) : List FinalRow :=
  dropDuplicates (finalPanCbioCosmic inp xs ++ remainedRows inp xs)

/-- The final output table `total_final_out` (up to the column drops and
the order-preserving natural sort on the line identifier, which do not
change which tagged records are present). -/
def totalFinalOut (inp : PipelineInput) : Except String (List FinalRow) :=
  match computeCounterpartsList inp inp.rows with
  | Except.error e => Except.error e
  | Except.ok xs => Except.ok (reconcile inp xs)

/-- A Python value flowing through the GATK read-count extraction: the
integer read counts, the no-info sentinel strings, and the float results
of `astype(float)` (modelled as rationals). -/
inductive PyVal where
  | pyStr (s : String)
  | pyInt (n : Int)
  | pyFloat (q : ℚ)
deriving DecidableEq, BEq

/-- Model of Python `int(s)`: an optional sign followed by at least one
digit; anything else raises a `ValueError`. -/
def pyIntParse (cs : List Char) : Except String Int :=
  let digitsToNat : List Char → Option Nat := fun ds =>
    if ds ≠ [] && ds.all isAsciiDigit then
      some (ds.foldl (fun n c => 10 * n + (c.toNat - '0'.toNat)) 0)
    else none
  match cs with
  | '-' :: rest =>
    match digitsToNat rest with
    | some n => Except.ok (-(n : Int))
    | none => Except.error "ValueError"
  | _ =>
    match digitsToNat cs with
    | some n => Except.ok (n : Int)
    | none => Except.error "ValueError"

/-- `extractVAF` of `Sapelo2_extract_somatic_germline.py`: split the
genotype field on `:`; with more than one part, parse the first two
comma-separated read counts of the second part as integers (raising
`IndexError` when the second count is missing), otherwise return the
`No info provided` sentinel for both counts. -/
def extractVAF (gatk_info : String) : Except String (PyVal × PyVal) :=
  let parts := pySplit ':' gatk_info.data
  if parts.length > 1 then
    match parts with
    | _ :: second :: _ =>
      match pySplit ',' second with
      | a :: b :: _ =>
        match pyIntParse a, pyIntParse b with
        | Except.ok ra, Except.ok rb => Except.ok (PyVal.pyInt ra, PyVal.pyInt rb)
        | Except.error e, _ => Except.error e
        | _, Except.error e => Except.error e
      | [a] =>
        match pyIntParse a with
        | Except.ok _ => Except.error "IndexError"
        | Except.error e => Except.error e
      | [] => Except.error "IndexError"
    | _ => Except.error "IndexError"
  else Except.ok (PyVal.pyStr "No info provided", PyVal.pyStr "No info provided")

/-- A row of `merge_gatk_annovar` restricted to the two read-count columns
inspected by the read-depth filter. -/
structure MRow where
  refReads : PyVal
  altReads : PyVal
deriving DecidableEq

/-- The read-depth filter of the main script, with the comparison string
exactly as it appears in the source (`"No info provide"`, without the
final letter of the sentinel `extractVAF` actually produces). -/
def filterNoReadDepth (rows : List MRow) : List MRow :=
  rows.filter (fun r =>
    decide (r.refReads ≠ PyVal.pyStr "No info provide") &&
    decide (r.altReads ≠ PyVal.pyStr "No info provide"))

/-- Model of pandas `astype(str)` on one cell. -/
def pyAstypeStr (v : PyVal) : PyVal :=
  match v with
  | PyVal.pyStr s => PyVal.pyStr s
  | PyVal.pyInt n => PyVal.pyStr (toString n)
  | PyVal.pyFloat q => PyVal.pyStr (toString q)

/-- Model of pandas `astype(float)` on one cell: numeric strings of digits
convert, other strings raise a `ValueError`. -/
def pyAstypeFloat (v : PyVal) : Except String PyVal :=
  match v with
  | PyVal.pyInt n => Except.ok (PyVal.pyFloat (n : ℚ))
  | PyVal.pyFloat q => Except.ok (PyVal.pyFloat q)
  | PyVal.pyStr s =>
    if s.data ≠ [] && s.data.all isAsciiDigit then
      Except.ok (PyVal.pyFloat
        ((s.data.foldl (fun n c => 10 * n + (c.toNat - '0'.toNat)) 0 : Nat) : ℚ))
    else Except.error "ValueError"

/-- Python addition on cell values: defined for numbers, a `TypeError`
otherwise. -/
def pyAdd (a b : PyVal) : Except String PyVal :=
  match a, b with
  | PyVal.pyFloat x, PyVal.pyFloat y => Except.ok (PyVal.pyFloat (x + y))
  | PyVal.pyInt x, PyVal.pyInt y => Except.ok (PyVal.pyInt (x + y))
  | PyVal.pyInt x, PyVal.pyFloat y => Except.ok (PyVal.pyFloat ((x : ℚ) + y))
  | PyVal.pyFloat x, PyVal.pyInt y => Except.ok (PyVal.pyFloat (x + (y : ℚ)))
  | _, _ => Except.error "TypeError"

/-- Python true division on cell values: dividing a string by a number
raises a `TypeError`. -/
def pyTrueDiv (a b : PyVal) : Except String PyVal :=
  match a, b with
  | PyVal.pyFloat x, PyVal.pyFloat y => Except.ok (PyVal.pyFloat (x / y))
  | PyVal.pyInt x, PyVal.pyInt y => Except.ok (PyVal.pyFloat ((x : ℚ) / (y : ℚ)))
  | PyVal.pyInt x, PyVal.pyFloat y => Except.ok (PyVal.pyFloat ((x : ℚ) / y))
  | PyVal.pyFloat x, PyVal.pyInt y => Except.ok (PyVal.pyFloat (x / (y : ℚ)))
  | _, _ => Except.error "TypeError"

/-- The per-cell effect of the `VAF` column assignment of the main script,
exactly as written in the source:
`Alt_reads.astype(str) / (Ref_reads.astype(float) + Alt_reads.astype(float))`. -/
def computeVAF (ref_reads alt_reads : PyVal) : Except String PyVal :=
  match pyAstypeFloat ref_reads, pyAstypeFloat alt_reads with
  | Except.ok rf, Except.ok af =>
    match pyAdd rf af with
    | Except.ok s => pyTrueDiv (pyAstypeStr alt_reads) s
    | Except.error e => Except.error e
  | Except.error e, _ => Except.error e
  | _, Except.error e => Except.error e

/-- Underscore membership used to characterise well-formed
`gene_mutation` notations of the reference databases. -/
def hasUnderscore (s : String) : Bool :=
  s.data.contains '_'

/-- The key sets of the four dictionaries agree (the lockstep invariant of
the builder). -/
def genesAgree (td : TotalDict) : Prop :=
  ∀ g : String,
    pyContains td.dog_human_pos_dict g = pyContains td.human_dog_pos_dict g ∧
    pyContains td.human_aa_dict g = pyContains td.human_dog_pos_dict g ∧
    pyContains td.dog_aa_dict g = pyContains td.human_dog_pos_dict g

example : pySplit '_' "TP53_R175H".data =
    [['T', 'P', '5', '3'], ['R', '1', '7', '5', 'H']] := by decide

example : parseMutInfo "G255fs".data = ParseState.fs 'G' ['2', '5', '5'] := by decide

example : parseMutInfo "R175H".data = ParseState.snv 'R' ['1', '7', '5'] 'H' := by decide

example : parseMutInfo "255del".data = ParseState.unbound := by decide

/-! Helper lemmas about the Python dictionary model. -/

theorem pyGet_cons {β : Type} (k q : String) (v : β) (d : List (String × β)) :
    pyGet ((k, v) :: d) q = if q = k then some v else pyGet d q := rfl

theorem pyContains_cons {β : Type} (k q : String) (v : β) (d : List (String × β)) :
    pyContains ((k, v) :: d) q = (decide (q = k) || pyContains d q) := by
  unfold pyContains
  rw [pyGet_cons]
  by_cases h : q = k <;> simp [h]

theorem pyContains_pySet2 (d : GeneDict) (g k v q : String) :
    pyContains (pySet2 d g k v) q = (decide (q = g) || pyContains d q) := by
  unfold pySet2
  rw [pyContains_cons]

theorem pyGet2_cons (k q p : String) (inner : InnerDict) (d : GeneDict) :
    pyGet2 ((k, inner) :: d) q p =
      if q = k then pyGet inner p else pyGet2 d q p := by
  unfold pyGet2
  rw [pyGet_cons]
  by_cases h : q = k <;> simp [h]

theorem pyGet2_pySet2 (d : GeneDict) (g k v q p : String) :
    pyGet2 (pySet2 d g k v) q p =
      if q = g then (if p = k then some v else pyGet2 d g p) else pyGet2 d q p := by
  unfold pySet2
  rw [pyGet2_cons]
  by_cases hq : q = g
  · rw [if_pos hq, if_pos hq, pyGet_cons]
    by_cases hp : p = k
    · rw [if_pos hp, if_pos hp]
    · rw [if_neg hp, if_neg hp]
      unfold pyGet2
      cases hdg : pyGet d g <;> simp [hdg, pyGet]
  · rw [if_neg hq, if_neg hq]

theorem mem_dropDuplicates {α : Type} [DecidableEq α] (x : α) (l : List α) :
    x ∈ dropDuplicates l ↔ x ∈ l := by
  induction l with
  | nil => simp [dropDuplicates]
  | cons a as ih =>
    by_cases hxa : x = a
    · subst hxa
      simp [dropDuplicates]
    · simp [dropDuplicates, List.mem_filter, hxa, ih]

/-! Step lemmas for `insertEntry`. -/

theorem contains_insertEntry_hd (td : TotalDict) (e : AlignRow) (g : String) :
    pyContains (insertEntry td e).human_dog_pos_dict g =
      (decide (g = e.gene) || pyContains td.human_dog_pos_dict g) := by
  unfold insertEntry setEntry
  rw [pyContains_pySet2]
  split
  · rfl
  · unfold initGene
    rw [pyContains_cons, ← Bool.or_assoc, Bool.or_self]

theorem contains_insertEntry_dh (td : TotalDict) (e : AlignRow) (g : String) :
    pyContains (insertEntry td e).dog_human_pos_dict g =
      (decide (g = e.gene) || pyContains td.dog_human_pos_dict g) := by
  unfold insertEntry setEntry
  rw [pyContains_pySet2]
  split
  · rfl
  · unfold initGene
    rw [pyContains_cons, ← Bool.or_assoc, Bool.or_self]

theorem contains_insertEntry_haa (td : TotalDict) (e : AlignRow) (g : String) :
    pyContains (insertEntry td e).human_aa_dict g =
      (decide (g = e.gene) || pyContains td.human_aa_dict g) := by
  unfold insertEntry setEntry
  rw [pyContains_pySet2]
  split
  · rfl
  · unfold initGene
    rw [pyContains_cons, ← Bool.or_assoc, Bool.or_self]

theorem contains_insertEntry_daa (td : TotalDict) (e : AlignRow) (g : String) :
    pyContains (insertEntry td e).dog_aa_dict g =
      (decide (g = e.gene) || pyContains td.dog_aa_dict g) := by
  unfold insertEntry setEntry
  rw [pyContains_pySet2]
  split
  · rfl
  · unfold initGene
    rw [pyContains_cons, ← Bool.or_assoc, Bool.or_self]

theorem genesAgree_insertEntry (td : TotalDict) (e : AlignRow)
    (h : genesAgree td) : genesAgree (insertEntry td e) := by
  intro g
  rcases h g with ⟨h1, h2, h3⟩
  rw [contains_insertEntry_hd, contains_insertEntry_dh, contains_insertEntry_haa,
    contains_insertEntry_daa, h1, h2, h3]
  exact ⟨rfl, rfl, rfl⟩

theorem genesAgree_foldl (l : List AlignRow) :
    ∀ td : TotalDict, genesAgree td → genesAgree (l.foldl insertEntry td) := by
  induction l with
  | nil => intro td h; exact h
  | cons e rest ih =>
    intro td h
    exact ih (insertEntry td e) (genesAgree_insertEntry td e h)


theorem pyGet_none_of_not_contains {β : Type} (d : List (String × β)) (k : String)
    (h : ¬pyContains d k = true) : pyGet d k = none := by
  cases hdg : pyGet d k
  · rfl
  · exact absurd (by unfold pyContains; rw [hdg]; rfl) h

theorem pyGet2_insertEntry_hd (td : TotalDict) (e : AlignRow) (g q : String) :
    pyGet2 (insertEntry td e).human_dog_pos_dict g q =
      if g = e.gene ∧ q = e.queryIdx then some e.refIdx
      else pyGet2 td.human_dog_pos_dict g q := by
  unfold insertEntry
  by_cases hmem : pyContains td.human_dog_pos_dict e.gene = true
  · rw [if_pos hmem]
    unfold setEntry
    rw [pyGet2_pySet2]
    by_cases hg : g = e.gene
    · by_cases hq : q = e.queryIdx
      · rw [if_pos hg, if_pos hq, if_pos ⟨hg, hq⟩]
      · rw [if_pos hg,
          if_neg (show ¬(g = e.gene ∧ q = e.queryIdx) from fun hc => hq hc.2),
          if_neg hq, hg]
    · rw [if_neg hg,
        if_neg (show ¬(g = e.gene ∧ q = e.queryIdx) from fun hc => hg hc.1)]
  · rw [if_neg hmem]
    unfold setEntry
    dsimp only [initGene]
    rw [pyGet2_pySet2]
    by_cases hg : g = e.gene
    · by_cases hq : q = e.queryIdx
      · rw [if_pos hg, if_pos hq, if_pos ⟨hg, hq⟩]
      · rw [if_pos hg,
          if_neg (show ¬(g = e.gene ∧ q = e.queryIdx) from fun hc => hq hc.2),
          if_neg hq, pyGet2_cons, if_pos rfl, hg]
        unfold pyGet2
        rw [pyGet_none_of_not_contains td.human_dog_pos_dict e.gene hmem]
        rfl
    · rw [if_neg hg,
        if_neg (show ¬(g = e.gene ∧ q = e.queryIdx) from fun hc => hg hc.1),
        pyGet2_cons, if_neg hg]

theorem pyGet2_insertEntry_dh (td : TotalDict) (e : AlignRow) (g p : String)
    (hag : pyContains td.dog_human_pos_dict e.gene =
      pyContains td.human_dog_pos_dict e.gene) :
    pyGet2 (insertEntry td e).dog_human_pos_dict g p =
      if g = e.gene ∧ p = e.refIdx then some e.queryIdx
      else pyGet2 td.dog_human_pos_dict g p := by
  unfold insertEntry
  by_cases hmem : pyContains td.human_dog_pos_dict e.gene = true
  · rw [if_pos hmem]
    unfold setEntry
    rw [pyGet2_pySet2]
    by_cases hg : g = e.gene
    · by_cases hp : p = e.refIdx
      · rw [if_pos hg, if_pos hp, if_pos ⟨hg, hp⟩]
      · rw [if_pos hg,
          if_neg (show ¬(g = e.gene ∧ p = e.refIdx) from fun hc => hp hc.2),
          if_neg hp, hg]
    · rw [if_neg hg,
        if_neg (show ¬(g = e.gene ∧ p = e.refIdx) from fun hc => hg hc.1)]
  · rw [if_neg hmem]
    unfold setEntry
    dsimp only [initGene]
    rw [pyGet2_pySet2]
    by_cases hg : g = e.gene
    · by_cases hp : p = e.refIdx
      · rw [if_pos hg, if_pos hp, if_pos ⟨hg, hp⟩]
      · rw [if_pos hg,
          if_neg (show ¬(g = e.gene ∧ p = e.refIdx) from fun hc => hp hc.2),
          if_neg hp, pyGet2_cons, if_pos rfl, hg]
        unfold pyGet2
        rw [pyGet_none_of_not_contains td.dog_human_pos_dict e.gene
          (by rw [hag]; exact hmem)]
        rfl
    · rw [if_neg hg,
        if_neg (show ¬(g = e.gene ∧ p = e.refIdx) from fun hc => hg hc.1),
        pyGet2_cons, if_neg hg]

/-! Persistence and retrievability lemmas for the alignment index. -/

theorem pyGet2_foldl_hd_persist (l : List AlignRow) :
    ∀ (td : TotalDict) (g q v : String),
      pyGet2 td.human_dog_pos_dict g q = some v →
      (∀ s ∈ l, s.gene = g → s.queryIdx = q → s.refIdx = v) →
      pyGet2 (l.foldl insertEntry td).human_dog_pos_dict g q = some v := by
  induction l with
  | nil => intro td g q v h _; exact h
  | cons e rest ih =>
    intro td g q v h hall
    rw [List.foldl_cons]
    apply ih
    · rw [pyGet2_insertEntry_hd]
      by_cases hc : g = e.gene ∧ q = e.queryIdx
      · rw [if_pos hc, hall e (List.mem_cons_self e rest) hc.1.symm hc.2.symm]
      · rw [if_neg hc]; exact h
    · intro s hs; exact hall s (List.mem_cons_of_mem e hs)

theorem pyGet2_foldl_dh_persist (l : List AlignRow) :
    ∀ (td : TotalDict) (g p v : String),
      genesAgree td →
      pyGet2 td.dog_human_pos_dict g p = some v →
      (∀ s ∈ l, s.gene = g → s.refIdx = p → s.queryIdx = v) →
      pyGet2 (l.foldl insertEntry td).dog_human_pos_dict g p = some v := by
  induction l with
  | nil => intro td g p v _ h _; exact h
  | cons e rest ih =>
    intro td g p v hinv h hall
    rw [List.foldl_cons]
    apply ih
    · exact genesAgree_insertEntry td e hinv
    · rw [pyGet2_insertEntry_dh td e g p (hinv e.gene).1]
      by_cases hc : g = e.gene ∧ p = e.refIdx
      · rw [if_pos hc, hall e (List.mem_cons_self e rest) hc.1.symm hc.2.symm]
      · rw [if_neg hc]; exact h
    · intro s hs; exact hall s (List.mem_cons_of_mem e hs)

theorem createDict_retrieve_hd (l : List AlignRow) :
    ∀ td : TotalDict,
      (∀ r ∈ l, ∀ s ∈ l, s.gene = r.gene → s.queryIdx = r.queryIdx →
        s.refIdx = r.refIdx) →
      ∀ r ∈ l, pyGet2 (l.foldl insertEntry td).human_dog_pos_dict
        r.gene r.queryIdx = some r.refIdx := by
  induction l with
  | nil => intro td _ r hr; exact absurd hr (List.not_mem_nil r)
  | cons e rest ih =>
    intro td hall r hr
    rw [List.foldl_cons]
    rcases List.mem_cons.mp hr with hre | hrr
    · subst hre
      apply pyGet2_foldl_hd_persist
      · rw [pyGet2_insertEntry_hd, if_pos ⟨rfl, rfl⟩]
      · intro s hs hsg hsq
        exact hall r (List.mem_cons_self r rest) s (List.mem_cons_of_mem r hs) hsg hsq
    · apply ih
      · intro a ha s hs hsg hsq
        exact hall a (List.mem_cons_of_mem e ha) s (List.mem_cons_of_mem e hs) hsg hsq
      · exact hrr

theorem createDict_retrieve_dh (l : List AlignRow) :
    ∀ td : TotalDict, genesAgree td →
      (∀ r ∈ l, ∀ s ∈ l, s.gene = r.gene → s.refIdx = r.refIdx →
        s.queryIdx = r.queryIdx) →
      ∀ r ∈ l, pyGet2 (l.foldl insertEntry td).dog_human_pos_dict
        r.gene r.refIdx = some r.queryIdx := by
  induction l with
  | nil => intro td _ _ r hr; exact absurd hr (List.not_mem_nil r)
  | cons e rest ih =>
    intro td hinv hall r hr
    rw [List.foldl_cons]
    rcases List.mem_cons.mp hr with hre | hrr
    · subst hre
      apply pyGet2_foldl_dh_persist
      · exact genesAgree_insertEntry td r hinv
      · rw [pyGet2_insertEntry_dh td r r.gene r.refIdx (hinv r.gene).1,
          if_pos ⟨rfl, rfl⟩]
      · intro s hs hsg hsr
        exact hall r (List.mem_cons_self r rest) s (List.mem_cons_of_mem r hs) hsg hsr
    · apply ih
      · exact genesAgree_insertEntry td e hinv
      · intro a ha s hs hsg hsr
        exact hall a (List.mem_cons_of_mem e ha) s (List.mem_cons_of_mem e hs) hsg hsr
      · exact hrr

theorem emptyTotalDict_genesAgree : genesAgree emptyTotalDict := by
  intro g; exact ⟨rfl, rfl, rfl⟩

/-! Claim theorems. -/

/-- C10: for every input alignment table, the four mappings built by
`createDictforHumanDogSearch` have exactly the same set of gene keys — a
gene is a key of one of the four dictionaries exactly when it is a key of
`human_dog_pos_dict`, because all four are initialised and written in
lockstep.  This makes the translator's gene-presence check against one
mapping equivalent to a check against any of the others. -/
theorem createDict_gene_key_sets_agree (rows : List AlignRow) (g : String) :
    pyContains (createDictforHumanDogSearch rows).dog_human_pos_dict g =
      pyContains (createDictforHumanDogSearch rows).human_dog_pos_dict g ∧
    pyContains (createDictforHumanDogSearch rows).human_aa_dict g =
      pyContains (createDictforHumanDogSearch rows).human_dog_pos_dict g ∧
    pyContains (createDictforHumanDogSearch rows).dog_aa_dict g =
      pyContains (createDictforHumanDogSearch rows).human_dog_pos_dict g :=
  genesAgree_foldl rows emptyTotalDict emptyTotalDict_genesAgree g

/-- C8 (amended): after gap propagation and filtering, provided no two
surviving rows of the same gene share a query position and no two
surviving rows of the same gene share a reference position, every
surviving row's (queryPos, refPos) pair is retrievable from both
directional mappings of the built index.  (The claim as frozen holds only
under this no-duplicate proviso: the builder is last-write-wins, so a
duplicated position makes an earlier row's pair unretrievable — see the
counterexample.) -/
theorem createDict_pairs_retrievable (rows : List AlignRow)
    (H1 : ∀ r ∈ gapClean rows, ∀ s ∈ gapClean rows,
      s.gene = r.gene → s.queryIdx = r.queryIdx → s.refIdx = r.refIdx)
    (H2 : ∀ r ∈ gapClean rows, ∀ s ∈ gapClean rows,
      s.gene = r.gene → s.refIdx = r.refIdx → s.queryIdx = r.queryIdx)
    (r : AlignRow) (hr : r ∈ gapClean rows) :
    pyGet2 (createDictforHumanDogSearch (gapClean rows)).human_dog_pos_dict
      r.gene r.queryIdx = some r.refIdx ∧
    pyGet2 (createDictforHumanDogSearch (gapClean rows)).dog_human_pos_dict
      r.gene r.refIdx = some r.queryIdx :=
  ⟨createDict_retrieve_hd (gapClean rows) emptyTotalDict H1 r hr,
   createDict_retrieve_dh (gapClean rows) emptyTotalDict
     emptyTotalDict_genesAgree H2 r hr⟩

/-- Witness for C8: a concrete table with one gap row (discarded by the
cleaning step) and one surviving row whose position pair is retrievable
from both directional mappings. -/
theorem createDict_pairs_retrievable_witness :
    pyGet2 (createDictforHumanDogSearch (gapClean
        [⟨"g", "1", "10", "A", "B"⟩, ⟨"g", "-", "11", "-", "C"⟩])).human_dog_pos_dict
      "g" "1" = some "10" ∧
    pyGet2 (createDictforHumanDogSearch (gapClean
        [⟨"g", "1", "10", "A", "B"⟩, ⟨"g", "-", "11", "-", "C"⟩])).dog_human_pos_dict
      "g" "10" = some "1" :=
  createDict_pairs_retrievable
    [⟨"g", "1", "10", "A", "B"⟩, ⟨"g", "-", "11", "-", "C"⟩]
    (by decide) (by decide) ⟨"g", "1", "10", "A", "B"⟩ (by decide)

/-- C8 counterexample: with two surviving rows of the same gene sharing
query position 1 but mapping it to different reference positions, the
first row's pair (1, 1) is not retrievable — the query-to-reference
mapping returns the later row's reference position 2 (last-write-wins),
refuting the claim as frozen (which quantifies over every surviving row
of every input). -/
theorem index_pair_retrievability_fails_on_duplicates :
    (⟨"g", "1", "1", "A", "A"⟩ : AlignRow) ∈
      gapClean [⟨"g", "1", "1", "A", "A"⟩, ⟨"g", "1", "2", "A", "C"⟩] ∧
    pyGet2 (createDictforHumanDogSearch (gapClean
        [⟨"g", "1", "1", "A", "A"⟩, ⟨"g", "1", "2", "A", "C"⟩])).human_dog_pos_dict
      "g" "1" = some "2" ∧
    pyGet2 (createDictforHumanDogSearch (gapClean
        [⟨"g", "1", "1", "A", "A"⟩, ⟨"g", "1", "2", "A", "C"⟩])).human_dog_pos_dict
      "g" "1" ≠ some "1" := by decide

/-- C1: the claim says that for a frameshift token whose gene is present
in the index, whose wild type is standard, whose position maps and whose
orthologous position has a residue entry differing from the wild type,
`identify_species_counterparts` returns gene_otherWildType+position+fs.
On the code this never happens: the frameshift branch never assigns the
local `mut`, so the standard-residue conjunction dereferences an unbound
local and the call raises `UnboundLocalError` as soon as the gene is
present and the wild type is standard.  Evaluation at an input satisfying
every hypothesis of the claim. -/
theorem identify_frameshift_raises_unbound_mut :
    identify_species_counterparts "TP53_G255fs"
      [("TP53", [("250", "255")])]
      [("TP53", [("255", "250")])]
      [("TP53", [("250", "H")])]
      [("TP53", [("255", "G")])]
      "human" = PyOutcome.unboundLocalError "mut" := by decide

/-- C2: the claim says a token whose mutation part matches neither the
frameshift nor the substitution pattern yields the `No Counterparts`
sentinel silently.  On the code, when neither regex matches, the local
`situtation` is never assigned, so the guard `if situtation:` raises an
`UnboundLocalError` instead of returning the sentinel.  Evaluation at the
failing input `TP53_255del` (a deletion, matching neither pattern). -/
theorem identify_unsupported_token_raises_unbound_situtation :
    identify_species_counterparts "TP53_255del" [] [] [] [] "human" =
      PyOutcome.unboundLocalError "situtation" := by decide

/-- C4: the claim says the `VAF` column equals alt-count / (ref-count +
alt-count).  The source computes
`Alt_reads.astype(str) / (Ref_reads.astype(float) + Alt_reads.astype(float))`,
dividing a string by a float, which raises a `TypeError`; with ref=5 and
alt=7 the code never produces the claimed 7/12. -/
theorem vaf_astype_str_division_raises_typeerror :
    computeVAF (PyVal.pyInt 5) (PyVal.pyInt 7) = Except.error "TypeError" := rfl

/-- C5: the claim says a record whose genotype field lacks parseable
read counts (the `No info provided` sentinel) is excluded from the final
output.  The source filter compares against the misspelled string
`No info provide`, which the sentinel never equals, so the no-info record
survives the read-depth filter instead of being excluded. -/
theorem no_readdepth_row_survives_filter :
    extractVAF "./." =
      Except.ok (PyVal.pyStr "No info provided", PyVal.pyStr "No info provided") ∧
    filterNoReadDepth
        [⟨PyVal.pyStr "No info provided", PyVal.pyStr "No info provided"⟩] =
      [⟨PyVal.pyStr "No info provided", PyVal.pyStr "No info provided"⟩] :=
  ⟨rfl, by decide⟩

/-- C9 counterexample: the claim as frozen omits the standard-residue
gate.  For the wild-type-equal-mutant token `TP53_B5B` (B is not a
standard amino-acid code) with the gene present, the position aligned
(dog 5 to human 7) and a residue entry H at the orthologous position, the
code returns the `No Counterparts` sentinel, not the claimed translated
wild-type-stable notation `TP53_H7H`. -/
theorem wildtype_stable_fails_nonstandard_residue :
    identify_species_counterparts "TP53_B5B"
      [("TP53", [("7", "5")])] [("TP53", [("5", "7")])]
      [("TP53", [("7", "H")])] [("TP53", [("5", "B")])] "human" =
      PyOutcome.ret "No Counterparts" ∧
    identify_species_counterparts "TP53_B5B"
      [("TP53", [("7", "5")])] [("TP53", [("5", "7")])]
      [("TP53", [("7", "H")])] [("TP53", [("5", "B")])] "human" ≠
      PyOutcome.ret "TP53_H7H" := by decide

/-- C9 (amended): for every substitution token whose wild type equals its
mutant and is additionally a standard single-letter amino-acid code, with
the gene present in the selected alternate mapping, the position mapping
to an orthologous position and that position carrying a residue entry,
`identify_species_counterparts` returns the translated wild-type-stable
notation gene_otherWildType+position+otherWildType.  No hypothesis
compares the mutant with the other species' residue, so this branch takes
precedence over the `No Mutation` branch when they coincide. -/
theorem identify_wildtype_stable (token : String)
    (hd dh ha da : GeneDict) (tt : String)
    (g mi : List Char) (wt : Char) (pos : List Char)
    (refD altD oaa : GeneDict) (refInner aaInner : InnerDict) (opos owt : String)
    (hsplit : pySplit '_' token.data = [g, mi])
    (hsel : selectDicts tt hd dh ha da = (refD, altD, oaa))
    (hfs : hasFsSub mi = false)
    (hsnv : snvSearch mi = some (wt, pos, wt))
    (halt : pyContains altD (String.mk g) = true)
    (hwt : commonAA.contains (pyCharUpper wt) = true)
    (href : pyGet refD (String.mk g) = some refInner)
    (hpos : pyGet refInner (String.mk pos) = some opos)
    (hoaa : pyGet oaa (String.mk g) = some aaInner)
    (haa : pyGet aaInner opos = some owt) :
    identify_species_counterparts token hd dh ha da tt =
      PyOutcome.ret (String.mk g ++ "_" ++ owt ++ opos ++ owt) := by
  unfold identify_species_counterparts
  rw [hsplit]
  simp only [hsel]
  unfold identifyCore
  simp only [parseMutInfo, hfs, hsnv, Bool.false_eq_true, if_false]
  simp only [halt, hwt, href, hpos, hoaa, haa, Bool.and_self, if_true]

/-- Witness for C9: the token `TP53_R5R` with dog position 5 aligned to
human position 7 whose human residue is also R; the mutant equals the
other species' wild type, yet the wild-type-stable branch wins and the
translated notation `TP53_R7R` is returned. -/
theorem identify_wildtype_stable_witness :
    identify_species_counterparts "TP53_R5R"
      [("TP53", [("7", "5")])] [("TP53", [("5", "7")])]
      [("TP53", [("7", "R")])] [("TP53", [("5", "R")])] "human" =
      PyOutcome.ret ("TP53" ++ "_" ++ "R" ++ "7" ++ "R") :=
  identify_wildtype_stable "TP53_R5R"
    [("TP53", [("7", "5")])] [("TP53", [("5", "7")])]
    [("TP53", [("7", "R")])] [("TP53", [("5", "R")])] "human"
    ['T', 'P', '5', '3'] ['R', '5', 'R'] 'R' ['5']
    [("TP53", [("5", "7")])] [("TP53", [("7", "5")])] [("TP53", [("7", "R")])]
    [("5", "7")] [("7", "R")] "7" "R"
    (by decide) (by decide) (by decide) (by decide) (by decide)
    (by decide) (by decide) (by decide) (by decide) (by decide)

/-- Every row of `finalPanCbioCosmic` carries one of the three passed
tags. -/
theorem finalPanCbioCosmic_sources (inp : PipelineInput) (xs : List XRow)
    (fr : FinalRow) (hfr : fr ∈ finalPanCbioCosmic inp xs) :
    fr.source = "Pan-cancer" ∨ fr.source = "C-bio" ∨ fr.source = "Cosmic" := by
  unfold finalPanCbioCosmic at hfr
  rw [mem_dropDuplicates] at hfr
  rcases List.mem_append.mp hfr with hf | hcos
  · rcases List.mem_append.mp hf with hp | hcb
    · rcases List.mem_map.mp hp with ⟨r, _, rfl⟩
      exact Or.inl rfl
    · rcases List.mem_map.mp hcb with ⟨r, _, rfl⟩
      exact Or.inr (Or.inl rfl)
  · rcases List.mem_map.mp hcos with ⟨r, _, rfl⟩
    exact Or.inr (Or.inr rfl)

/-- A record matching the pan-cancer reference set appears in
`finalPanCbioCosmic` tagged `Pan-cancer`. -/
theorem mem_finalPanCbioCosmic_of_pan (inp : PipelineInput) (xs : List XRow)
    (r : ARow) (h : r ∈ pan_cancer_pass inp.rows inp.pan_cancer_source) :
    FinalRow.mk r "Pan-cancer" ∈ finalPanCbioCosmic inp xs := by
  unfold finalPanCbioCosmic
  rw [mem_dropDuplicates]
  exact List.mem_append_left _ (List.mem_append_left _
    (List.mem_map.mpr ⟨r, h, rfl⟩))

/-- C3 (amended): every row of the final output table carries a `Source`
tag drawn from Pan-cancer, C-bio, Cosmic and Remained, and every input
record whose genomic key `chrom_pos_ref_alt` occurs in the pan-cancer
reference set appears in the output tagged `Pan-cancer`.  (The frozen
claim's mutual-exclusivity part fails on the code: a pan-cancer record
that also matches C-bio or COSMIC evidence additionally appears under
that second tag, because the source only deduplicates COSMIC rows against
C-bio rows — see the counterexample.) -/
theorem totalFinalOut_source_tags (inp : PipelineInput) (out : List FinalRow)
    (h : totalFinalOut inp = Except.ok out) :
    (∀ fr ∈ out, fr.source = "Pan-cancer" ∨ fr.source = "C-bio" ∨
      fr.source = "Cosmic" ∨ fr.source = "Remained") ∧
    (∀ r ∈ inp.rows, r.chrom_mut_info ∈ inp.pan_cancer_source →
      FinalRow.mk r "Pan-cancer" ∈ out) := by
  have hout : ∃ xs, computeCounterpartsList inp inp.rows = Except.ok xs ∧
      out = reconcile inp xs := by
    unfold totalFinalOut at h
    cases hc : computeCounterpartsList inp inp.rows with
    | error e => rw [hc] at h; cases h
    | ok xs => rw [hc] at h; cases h; exact ⟨xs, rfl, rfl⟩
  obtain ⟨xs, _, rfl⟩ := hout
  constructor
  · intro fr hfr
    unfold reconcile at hfr
    rw [mem_dropDuplicates] at hfr
    rcases List.mem_append.mp hfr with hf | hrem
    · rcases finalPanCbioCosmic_sources inp xs fr hf with h1 | h1 | h1
      · exact Or.inl h1
      · exact Or.inr (Or.inl h1)
      · exact Or.inr (Or.inr (Or.inl h1))
    · unfold remainedRows at hrem
      rcases List.mem_map.mp hrem with ⟨r, _, rfl⟩
      exact Or.inr (Or.inr (Or.inr rfl))
  · intro r hr hpan
    unfold reconcile
    rw [mem_dropDuplicates]
    apply List.mem_append_left
    apply mem_finalPanCbioCosmic_of_pan
    unfold pan_cancer_pass
    rw [List.mem_filter]
    exact ⟨hr, by rw [decide_eq_true_eq]; exact hpan⟩

/-- Witness for C3: a single record matching only pan-cancer; the pipeline
returns it tagged `Pan-cancer`, and both conclusions of the amended claim
are discharged at this input. -/
theorem totalFinalOut_source_tags_witness :
    totalFinalOut ⟨[⟨"line1", "TP53", "T1", "TP53_R5H", "chr1_500_A_T"⟩],
        ["chr1_500_A_T"], ["TP53_R7H"], [], [], [], [], [], [], [], [], [], [], [],
        "human"⟩ =
      Except.ok [⟨⟨"line1", "TP53", "T1", "TP53_R5H", "chr1_500_A_T"⟩, "Pan-cancer"⟩] ∧
    FinalRow.mk ⟨"line1", "TP53", "T1", "TP53_R5H", "chr1_500_A_T"⟩ "Pan-cancer" ∈
      [FinalRow.mk ⟨"line1", "TP53", "T1", "TP53_R5H", "chr1_500_A_T"⟩ "Pan-cancer"] :=
  ⟨rfl,
    (totalFinalOut_source_tags
      ⟨[⟨"line1", "TP53", "T1", "TP53_R5H", "chr1_500_A_T"⟩],
        ["chr1_500_A_T"], ["TP53_R7H"], [], [], [], [], [], [], [], [], [], [], [],
        "human"⟩
      [FinalRow.mk ⟨"line1", "TP53", "T1", "TP53_R5H", "chr1_500_A_T"⟩ "Pan-cancer"]
      rfl).2
      ⟨"line1", "TP53", "T1", "TP53_R5H", "chr1_500_A_T"⟩ (by decide) (by decide)⟩

/-- C3 counterexample: a record whose genomic key is in the pan-cancer
set and which also passes the C-bio transcript gate and counterpart
membership appears TWICE in the final output, once tagged `Pan-cancer`
and once tagged `C-bio` — the tags are not mutually exclusive and no
Pan-cancer-over-C-bio priority is enforced, refuting the exactly-one-tag
part of the frozen claim. -/
theorem pan_cancer_exclusivity_fails :
    totalFinalOut ⟨[⟨"line1", "TP53", "T1", "TP53_R5H", "chr1_500_A_T"⟩],
        ["chr1_500_A_T"], ["TP53_R7H"], [], [⟨"TP53", "hT1", "T1"⟩], [],
        [("TP53", [("7", "5")])], [("TP53", [("5", "7")])],
        [("TP53", [("7", "R")])], [("TP53", [("5", "R")])],
        [], [], [], [], "human"⟩ =
      Except.ok
        [⟨⟨"line1", "TP53", "T1", "TP53_R5H", "chr1_500_A_T"⟩, "Pan-cancer"⟩,
         ⟨⟨"line1", "TP53", "T1", "TP53_R5H", "chr1_500_A_T"⟩, "C-bio"⟩] := rfl

/-- C6 counterexample: a record of gene GENEA whose transcript T1 is
listed in the correspondence table only under gene GENEB still passes the
transcript gate and is counted as a C-bio match, although the set of dog
transcripts for its own gene is empty — the gate is a global column
membership test, not gene-specific as the frozen claim states. -/
theorem transcript_gate_not_gene_specific :
    c_bio_pass
        [⟨⟨"line1", "GENEA", "T1", "GENEA_R5H", "chr1_1_A_T"⟩,
          "GENEA_R7H", "No Counterparts"⟩]
        (dogTranscriptCol [⟨"GENEB", "hT9", "T1"⟩]) ["GENEA_R7H"] =
      [⟨"line1", "GENEA", "T1", "GENEA_R5H", "chr1_1_A_T"⟩] ∧
    List.filter (fun t => decide (t.gene = "GENEA") && decide (t.dogT = "T1"))
        [(⟨"GENEB", "hT9", "T1"⟩ : TransRow)] = [] :=
  ⟨rfl, rfl⟩

/-- C6 (amended): a variant record is counted as a C-bio or COSMIC
database match only if its Ensembl transcript identifier occurs in the
`Dog_transcripts` column of the corresponding human-dog transcript table
— a global column-membership gate, regardless of which gene the
transcript is listed under. -/
theorem db_match_requires_global_dog_transcript (xs : List XRow)
    (table : List TransRow) (allL : List String) (x : XRow) :
    (x ∈ c_bio_match_rows xs (dogTranscriptCol table) allL →
      x.base.ensembl_transcripts ∈ dogTranscriptCol table) ∧
    (x ∈ cosm_match_rows xs (dogTranscriptCol table) allL →
      x.base.ensembl_transcripts ∈ dogTranscriptCol table) := by
  constructor
  · intro hx
    unfold c_bio_match_rows transcript_match at hx
    rw [List.mem_filter] at hx
    rcases hx with ⟨hx1, _⟩
    rw [List.mem_filter] at hx1
    exact of_decide_eq_true hx1.2
  · intro hx
    unfold cosm_match_rows transcript_match at hx
    rw [List.mem_filter] at hx
    rcases hx with ⟨hx1, _⟩
    rw [List.mem_filter] at hx1
    exact of_decide_eq_true hx1.2

/-- Witness for C6: a concrete matched record whose transcript does occur
in the dog-transcript column. -/
theorem db_match_requires_global_dog_transcript_witness :
    (⟨⟨"line1", "GENEA", "T1", "GENEA_R5H", "chr1_1_A_T"⟩,
        "GENEA_R7H", "No Counterparts"⟩ : XRow) ∈
      c_bio_match_rows
        [⟨⟨"line1", "GENEA", "T1", "GENEA_R5H", "chr1_1_A_T"⟩,
          "GENEA_R7H", "No Counterparts"⟩]
        (dogTranscriptCol [⟨"GENEB", "hT9", "T1"⟩]) ["GENEA_R7H"] ∧
    "T1" ∈ dogTranscriptCol [(⟨"GENEB", "hT9", "T1"⟩ : TransRow)] :=
  ⟨by decide,
    (db_match_requires_global_dog_transcript
      [⟨⟨"line1", "GENEA", "T1", "GENEA_R5H", "chr1_1_A_T"⟩,
        "GENEA_R7H", "No Counterparts"⟩]
      [⟨"GENEB", "hT9", "T1"⟩] ["GENEA_R7H"]
      ⟨⟨"line1", "GENEA", "T1", "GENEA_R5H", "chr1_1_A_T"⟩,
        "GENEA_R7H", "No Counterparts"⟩).1 (by decide)⟩

/-- C7: when every atomic notation of a reference mutation-occurrence set
is a well-formed gene_mutation notation (contains an underscore, as the
`Mut_type` columns of the c-bio and COSMIC inputs do), a record whose
counterpart column holds the non-translated sentinel `No Counterparts` or
`No Mutation` is never reported as a database match: no row of the
matched set carries a sentinel counterpart. -/
theorem db_match_never_sentinel (xs : List XRow) (dogTs allL : List String)
    (hwf : ∀ s ∈ allL, hasUnderscore s = true) :
    (∀ x ∈ c_bio_match_rows xs dogTs allL,
      x.cbioC ≠ "No Counterparts" ∧ x.cbioC ≠ "No Mutation") ∧
    (∀ x ∈ cosm_match_rows xs dogTs allL,
      x.cosmC ≠ "No Counterparts" ∧ x.cosmC ≠ "No Mutation") := by
  constructor
  · intro x hx
    unfold c_bio_match_rows at hx
    rw [List.mem_filter] at hx
    have hu := hwf x.cbioC (of_decide_eq_true hx.2)
    constructor
    · intro he; rw [he] at hu; exact absurd hu (by decide)
    · intro he; rw [he] at hu; exact absurd hu (by decide)
  · intro x hx
    unfold cosm_match_rows at hx
    rw [List.mem_filter] at hx
    have hu := hwf x.cosmC (of_decide_eq_true hx.2)
    constructor
    · intro he; rw [he] at hu; exact absurd hu (by decide)
    · intro he; rw [he] at hu; exact absurd hu (by decide)

/-- Witness for C7: a non-vacuous instance — one record with a translated
counterpart that is a member of a well-formed reference set. -/
theorem db_match_never_sentinel_witness :
    (∀ x ∈ c_bio_match_rows
        [⟨⟨"line1", "TP53", "T1", "TP53_R5H", "chr1_500_A_T"⟩,
          "TP53_R7H", "TP53_R7H"⟩] ["T1"] ["TP53_R7H"],
      x.cbioC ≠ "No Counterparts" ∧ x.cbioC ≠ "No Mutation") ∧
    (∀ x ∈ cosm_match_rows
        [⟨⟨"line1", "TP53", "T1", "TP53_R5H", "chr1_500_A_T"⟩,
          "TP53_R7H", "TP53_R7H"⟩] ["T1"] ["TP53_R7H"],
      x.cosmC ≠ "No Counterparts" ∧ x.cosmC ≠ "No Mutation") :=
  db_match_never_sentinel
    [⟨⟨"line1", "TP53", "T1", "TP53_R5H", "chr1_500_A_T"⟩,
      "TP53_R7H", "TP53_R7H"⟩] ["T1"] ["TP53_R7H"] (by decide)
